import Mathlib

/-!
Shallow embedding of the CloudGuard AI ML service core (src/ai-service/main.py):
feature preparation, the three prediction functions, the digital twin engine and
the predict endpoint dispatch. Python floats are modelled as exact rationals;
the learned TensorFlow models are abstract scoring functions passed as parameters;
Python exceptions are modelled with the Except monad.
-/

namespace CloudGuard

/-- One metric sample, mirroring the MetricData pydantic model. -/
structure MetricData where
  timestamp : Nat
  resource_id : String
  cpu : ℚ
  memory : ℚ
  disk : ℚ
  network : ℚ
deriving DecidableEq

/-- A request to the predict endpoint, mirroring PredictionRequest. -/
structure PredictionRequest where
  resource_id : String
  metrics : List MetricData
  prediction_type : String
deriving DecidableEq

/-- A width-4 numeric vector: one value per metric field (cpu, memory, disk, network).
Used as the input and output shape of the anomaly autoencoder and as the output
shape of the performance model. -/
structure Vec4 where
  v0 : ℚ
  v1 : ℚ
  v2 : ℚ
  v3 : ℚ
deriving DecidableEq

/-- The three learned models of CloudMetricsPredictor, abstracted to their
input and output shapes (the spec treats them as pluggable scoring functions). -/
structure MLModels where
  performance_model : List ℚ → Vec4
  anomaly_model : Vec4 → Vec4
  cost_model : List ℚ → ℚ

/-- The four metric fields of a sample, raw (not normalized), in source order. -/
def raw_fields (m : MetricData) : List ℚ :=
  [m.cpu, m.memory, m.disk, m.network]

/-- The four metric fields of a sample, each divided by 100, in source order. -/
def norm_fields (m : MetricData) : List ℚ :=
  [m.cpu / 100, m.memory / 100, m.disk / 100, m.network / 100]

/-- CloudMetricsPredictor.preprocess_metrics: with fewer than 10 samples,
left-pad with zero 4-tuples and append the raw field values; with 10 or more,
take the last 10 samples and normalize each field by 100. -/
def preprocess_metrics (metrics : List MetricData) : List ℚ :=
  if metrics.length < 10 then
    List.flatten (List.replicate (10 - metrics.length) ([0, 0, 0, 0] : List ℚ))
      ++ List.flatten (metrics.map raw_fields)
  else
    List.flatten ((metrics.drop (metrics.length - 10)).map norm_fields)

/-- Result of predict_performance (success path). -/
structure PerformanceResult where
  predicted_cpu : ℚ
  predicted_memory : ℚ
  predicted_disk : ℚ
  predicted_network : ℚ
  confidence : ℚ
  prediction_horizon : String
deriving DecidableEq

/-- CloudMetricsPredictor.predict_performance: run the performance model on the
preprocessed window, denormalize each output by 100, report a confidence of
0.85 plus jitter (np.random.random() passed in as rand) and a fixed horizon. -/
def predict_performance (model : List ℚ → Vec4) (rand : ℚ)
    (metrics : List MetricData) : PerformanceResult :=
  let prediction := model (preprocess_metrics metrics)
  { predicted_cpu := prediction.v0 * 100
    predicted_memory := prediction.v1 * 100
    predicted_disk := prediction.v2 * 100
    predicted_network := prediction.v3 * 100
    confidence := 0.85 + rand * 0.1
    prediction_horizon := "1 hour" }

/-- Result of detect_anomalies. The threshold and confidence keys are absent
from the empty-input sentinel dictionary, hence Option with default none. -/
structure AnomalyResult where
  anomaly_score : ℚ
  is_anomaly : Bool
  threshold : Option ℚ := none
  confidence : Option ℚ := none
deriving DecidableEq

/-- The normalized width-4 input built from the latest sample. -/
def anomaly_input (m : MetricData) : Vec4 :=
  ⟨m.cpu / 100, m.memory / 100, m.disk / 100, m.network / 100⟩

/-- np.mean of np.square of the elementwise difference of two width-4 vectors. -/
def mse (x y : Vec4) : ℚ :=
  ((x.v0 - y.v0) ^ 2 + (x.v1 - y.v1) ^ 2 + (x.v2 - y.v2) ^ 2 + (x.v3 - y.v3) ^ 2) / 4

/-- CloudMetricsPredictor.detect_anomalies: with no samples, return the
no-anomaly sentinel without running the model; otherwise score the latest
sample by reconstruction error against the autoencoder output. -/
def detect_anomalies (model : Vec4 → Vec4) (metrics : List MetricData) : AnomalyResult :=
  if h : metrics = [] then
    { anomaly_score := 0, is_anomaly := false }
  else
    let latest := metrics.getLast h
    let input := anomaly_input latest
    let reconstruction := model input
    let score := mse input reconstruction
    { anomaly_score := score
      is_anomaly := decide ((0.1 : ℚ) < score)
      threshold := some 0.1
      confidence := some 0.92 }

/-- Result of predict_cost. The empty-input sentinel dictionary carries only
the predicted_cost key; the success dictionary carries the other four keys. -/
structure CostResult where
  predicted_cost : Option ℚ := none
  predicted_daily_cost : Option ℚ := none
  predicted_monthly_cost : Option ℚ := none
  cost_trend : Option String := none
  optimization_potential : Option ℚ := none
deriving DecidableEq

/-- np.mean of a list of rationals (sum divided by length). -/
def list_mean (l : List ℚ) : ℚ := l.sum / (l.length : ℚ)

/-- The width-8 cost feature vector: the four mean utilizations divided by 100,
the raw sample count, and a one-hot triple for the resource type. -/
def cost_features (metrics : List MetricData) (resource_type : String) : List ℚ :=
  [ list_mean (metrics.map (fun m => m.cpu)) / 100,
    list_mean (metrics.map (fun m => m.memory)) / 100,
    list_mean (metrics.map (fun m => m.disk)) / 100,
    list_mean (metrics.map (fun m => m.network)) / 100,
    (metrics.length : ℚ),
    if resource_type = "compute" then 1 else 0,
    if resource_type = "database" then 1 else 0,
    if resource_type = "storage" then 1 else 0 ]

/-- CloudMetricsPredictor.predict_cost: with no samples, a zero-cost sentinel;
otherwise score the feature vector, scale by 100 to a daily cost, and derive
monthly cost, trend and optimization potential.  In the Python source the
resource_type parameter defaults to "compute"; every call site in this file
passes that default value explicitly. -/
def predict_cost (model : List ℚ → ℚ) (metrics : List MetricData)
    (resource_type : String) : CostResult :=
  if metrics.length < 1 then
    { predicted_cost := some 0 }
  else
    let avg_cpu := list_mean (metrics.map (fun m => m.cpu))
    let features := cost_features metrics resource_type
    let base_cost := model features * 100
    { predicted_daily_cost := some base_cost
      predicted_monthly_cost := some (base_cost * 30)
      cost_trend := some (if avg_cpu > 70 then "increasing" else "stable")
      optimization_potential := some (max 0 ((100 - avg_cpu) * 0.01 * base_cost)) }

/-- Free-form twin state dictionary (the Python Dict), as an association list. -/
abbrev StateDict : Type := List (String × String)

/-- A digital twin record, mirroring the DigitalTwinState pydantic model. -/
structure DigitalTwinState where
  resource_id : String
  state : StateDict
  predictions : Option (PerformanceResult × AnomalyResult × CostResult) := none
  accuracy : ℚ := 0

/-- The in-memory twin registry (DigitalTwinEngine.twins), keyed by resource id. -/
abbrev TwinStore : Type := String → Option DigitalTwinState

/-- The combined prediction set attached to a twin on update: performance,
anomaly and cost, the latter with the default resource type "compute". -/
def mk_predictions (M : MLModels) (perfRand : ℚ) (metrics : List MetricData) :
    PerformanceResult × AnomalyResult × CostResult :=
  ( predict_performance M.performance_model perfRand metrics,
    detect_anomalies M.anomaly_model metrics,
    predict_cost M.cost_model metrics "compute" )

/-- DigitalTwinEngine.create_twin: build a twin with accuracy 0.75 plus jitter
(np.random.random() passed in as rand, scaled by 0.2), predictions unset,
and store it under its resource id, replacing any previous record. -/
def create_twin (rand : ℚ) (store : TwinStore) (resource_id : String)
    (initial_state : StateDict) : DigitalTwinState × TwinStore :=
  let twin : DigitalTwinState :=
    { resource_id := resource_id
      state := initial_state
      predictions := none
      accuracy := 0.75 + rand * 0.2 }
  (twin, fun j => if j = resource_id then some twin else store j)

/-- One InfluxDB point written by store_twin_data for one metric sample. -/
structure InfluxPoint where
  measurement : String
  resource_id : String
  cpu : ℚ
  memory : ℚ
  disk : ℚ
  network : ℚ
  accuracy : ℚ
  timestamp : Nat
deriving DecidableEq

/-- The point built for one sample inside the store_twin_data loop. -/
def influx_point (twin : DigitalTwinState) (m : MetricData) : InfluxPoint :=
  { measurement := "digital_twin_metrics"
    resource_id := twin.resource_id
    cpu := m.cpu
    memory := m.memory
    disk := m.disk
    network := m.network
    accuracy := twin.accuracy
    timestamp := m.timestamp }

/-- The body of the try block of store_twin_data: write one point per sample,
stopping at the first raised write failure.  The write API is an external
collaborator, passed in as a fallible function. -/
def store_twin_data_attempt (write : InfluxPoint → Except String Unit)
    (twin : DigitalTwinState) (metrics : List MetricData) : Except String Unit :=
  metrics.foldlM (fun _ m => write (influx_point twin m)) ()

/-- DigitalTwinEngine.store_twin_data: the try block wrapped by an
except-all that logs the failure and swallows it, returning normally. -/
def store_twin_data (write : InfluxPoint → Except String Unit)
    (twin : DigitalTwinState) (metrics : List MetricData) : Except String Unit :=
  match store_twin_data_attempt write twin metrics with
  | Except.ok _ => Except.ok ()
  | Except.error _ => Except.ok ()

/-- The in-memory part of DigitalTwinEngine.update_twin: auto-create the twin
when absent (with the default state dictionary), attach the three fresh
predictions, bump accuracy by 0.001 capped at 0.99, and store the result. -/
def update_twin_core (M : MLModels) (createRand perfRand : ℚ) (store : TwinStore)
    (resource_id : String) (metrics : List MetricData) :
    DigitalTwinState × TwinStore :=
  let p :=
    match store resource_id with
    | some t => (t, store)
    | none => create_twin createRand store resource_id [("status", "active")]
  let twin1 : DigitalTwinState :=
    { p.1 with
      predictions := some (mk_predictions M perfRand metrics)
      accuracy := min 0.99 (p.1.accuracy + 0.001) }
  (twin1, fun j => if j = resource_id then some twin1 else p.2 j)

/-- DigitalTwinEngine.update_twin: perform the in-memory update, then hand the
updated twin and the raw metrics to the persistence collaborator, then return
the updated twin.  An exception escaping the persistence hand-off would
propagate to the caller through the Except monad. -/
def update_twin (M : MLModels) (write : InfluxPoint → Except String Unit)
    (createRand perfRand : ℚ) (store : TwinStore) (resource_id : String)
    (metrics : List MetricData) : Except String (DigitalTwinState × TwinStore) :=
  let p := update_twin_core M createRand perfRand store resource_id metrics
  Except.bind (store_twin_data write p.1 metrics) (fun _ => Except.ok p)

/-- The twin store after n update_twin calls for the same resource id. -/
def update_seq (M : MLModels) (createRand perfRand : ℚ) (store : TwinStore)
    (resource_id : String) (metrics : List MetricData) : Nat → TwinStore
  | 0 => store
  | n + 1 =>
    (update_twin_core M createRand perfRand
      (update_seq M createRand perfRand store resource_id metrics n)
      resource_id metrics).2

/-- The twin returned by the n-plus-first update_twin call for a resource id. -/
def update_result (M : MLModels) (createRand perfRand : ℚ) (store : TwinStore)
    (resource_id : String) (metrics : List MetricData) (n : Nat) : DigitalTwinState :=
  (update_twin_core M createRand perfRand
    (update_seq M createRand perfRand store resource_id metrics n)
    resource_id metrics).1

/-- A FastAPI HTTPException, reduced to its status code and detail string. -/
structure HTTPException where
  status_code : Nat
  detail : String
deriving DecidableEq

/-- str(e) for an HTTPException (status code, colon, detail). -/
def http_exception_str (e : HTTPException) : String :=
  toString e.status_code ++ ": " ++ e.detail

/-- The task-tagged result payload of the predict endpoint. -/
inductive PredictResult where
  | performance (r : PerformanceResult)
  | anomaly (r : AnomalyResult)
  | cost (r : CostResult)
deriving DecidableEq

/-- The response body of the predict endpoint (timestamp omitted: wall-clock
plumbing outside the core). -/
structure PredictResponse where
  resource_id : String
  prediction_type : String
  result : PredictResult
deriving DecidableEq

/-- The try block of the predict_metrics endpoint: dispatch on the task
identifier; an unknown identifier raises HTTPException(400).  The cost branch
calls predict_cost without a resource type, so the Python default "compute"
applies. -/
def predict_try_body (M : MLModels) (perfRand : ℚ) (request : PredictionRequest) :
    Except HTTPException PredictResponse :=
  if request.prediction_type = "performance" then
    Except.ok
      { resource_id := request.resource_id
        prediction_type := request.prediction_type
        result := PredictResult.performance
          (predict_performance M.performance_model perfRand request.metrics) }
  else if request.prediction_type = "anomaly" then
    Except.ok
      { resource_id := request.resource_id
        prediction_type := request.prediction_type
        result := PredictResult.anomaly
          (detect_anomalies M.anomaly_model request.metrics) }
  else if request.prediction_type = "cost" then
    Except.ok
      { resource_id := request.resource_id
        prediction_type := request.prediction_type
        result := PredictResult.cost
          (predict_cost M.cost_model request.metrics "compute") }
  else
    Except.error { status_code := 400, detail := "Invalid prediction type" }

/-- The predict_metrics endpoint.  The whole try block sits inside an
except-Exception handler; FastAPI HTTPException derives from Exception, so the
400 raised for an unknown task is caught here too and re-raised as
HTTPException(500, str(e)). -/
def predict_metrics (M : MLModels) (perfRand : ℚ) (request : PredictionRequest) :
    Except HTTPException PredictResponse :=
  match predict_try_body M perfRand request with
  | Except.ok v => Except.ok v
  | Except.error e =>
    Except.error { status_code := 500, detail := http_exception_str e }

/-- A fixed concrete sample used by the witness theorems. -/
def sample_metric : MetricData :=
  { timestamp := 0, resource_id := "r1", cpu := 80, memory := 60, disk := 40, network := 20 }

/-- Flattening k copies of the zero 4-tuple gives 4k zeros. -/
theorem flatten_replicate_zero4 (k : Nat) :
    List.flatten (List.replicate k ([0, 0, 0, 0] : List ℚ))
      = List.replicate (4 * k) (0 : ℚ) := by
  induction k with
  | zero => rfl
  | succ n ih =>
    rw [List.replicate_succ, List.flatten_cons, ih]
    have h4 : 4 * (n + 1) = 4 + 4 * n := by ring
    rw [h4, List.replicate_add]
    rfl

/-- The flattened raw-field list of n samples has 4n entries. -/
theorem length_flatten_raw (l : List MetricData) :
    (List.flatten (l.map raw_fields)).length = 4 * l.length := by
  induction l with
  | nil => rfl
  | cons m t ih =>
    simp only [List.map_cons, List.flatten_cons, List.length_append, ih,
      raw_fields, List.length_cons, List.length_nil]
    omega

/-- The flattened normalized-field list of n samples has 4n entries. -/
theorem length_flatten_norm (l : List MetricData) :
    (List.flatten (l.map norm_fields)).length = 4 * l.length := by
  induction l with
  | nil => rfl
  | cons m t ih =>
    simp only [List.map_cons, List.flatten_cons, List.length_append, ih,
      norm_fields, List.length_cons, List.length_nil]
    omega

/-- C4: for an empty metrics sequence, anomaly detection returns the sentinel
result with anomaly_score 0 and is_anomaly false (and no threshold or
confidence keys), for every possible scoring function — the model is never
consulted — and the function returns a value rather than raising. -/
theorem detect_anomalies_empty_sentinel (model : Vec4 → Vec4) :
    detect_anomalies model [] = { anomaly_score := 0, is_anomaly := false } := rfl

/-- C5: for a non-empty metrics sequence, is_anomaly holds exactly when the
reconstruction mean-squared error strictly exceeds 0.1; an error of exactly
0.1 yields false, and the reported threshold field is 0.1. -/
theorem detect_anomalies_threshold_contract (model : Vec4 → Vec4)
    (metrics : List MetricData) (latest : MetricData)
    (h : metrics.getLast? = some latest) :
    ((detect_anomalies model metrics).is_anomaly = true
        ↔ 0.1 < mse (anomaly_input latest) (model (anomaly_input latest)))
    ∧ (detect_anomalies model metrics).anomaly_score
        = mse (anomaly_input latest) (model (anomaly_input latest))
    ∧ (detect_anomalies model metrics).threshold = some 0.1
    ∧ (mse (anomaly_input latest) (model (anomaly_input latest)) = 0.1 →
        (detect_anomalies model metrics).is_anomaly = false) := by
  have hne : metrics ≠ [] := by
    intro he
    rw [he] at h
    simp at h
  have hl : metrics.getLast hne = latest := by
    have := List.getLast?_eq_getLast metrics hne
    rw [h] at this
    exact (Option.some_injective _ this).symm
  have hd : detect_anomalies model metrics =
      { anomaly_score := mse (anomaly_input latest) (model (anomaly_input latest))
        is_anomaly := decide
          ((0.1 : ℚ) < mse (anomaly_input latest) (model (anomaly_input latest)))
        threshold := some 0.1
        confidence := some 0.92 } := by
    simp only [detect_anomalies, dif_neg hne, hl]
  refine ⟨?_, ?_, ?_, ?_⟩
  · rw [hd]
    exact decide_eq_true_iff
  · rw [hd]
  · rw [hd]
  · intro hs
    rw [hd]
    simp only [hs]
    norm_num

/-- C5 witness: the contract evaluated on one concrete sample with the
identity reconstruction (error 0, below the threshold). -/
theorem detect_anomalies_threshold_contract_witness :
    ([sample_metric].getLast? = some sample_metric)
    ∧ (((detect_anomalies id [sample_metric]).is_anomaly = true
        ↔ 0.1 < mse (anomaly_input sample_metric) (id (anomaly_input sample_metric)))
      ∧ (detect_anomalies id [sample_metric]).anomaly_score
          = mse (anomaly_input sample_metric) (id (anomaly_input sample_metric))
      ∧ (detect_anomalies id [sample_metric]).threshold = some 0.1
      ∧ (mse (anomaly_input sample_metric) (id (anomaly_input sample_metric)) = 0.1 →
          (detect_anomalies id [sample_metric]).is_anomaly = false)) :=
  ⟨rfl, detect_anomalies_threshold_contract id [sample_metric] sample_metric rfl⟩

/-- C6: for a non-empty metrics sequence, the cost trend is "increasing"
exactly when the mean CPU strictly exceeds 70 (mean 70 gives "stable"),
the monthly cost is 30 times the daily cost, and the optimization potential
is max 0 of (100 minus mean CPU) times 0.01 times the daily cost. -/
theorem predict_cost_contract (model : List ℚ → ℚ) (metrics : List MetricData)
    (rt : String) (h : metrics ≠ []) :
    ((predict_cost model metrics rt).cost_trend = some "increasing"
        ↔ 70 < list_mean (metrics.map (fun m => m.cpu)))
    ∧ ((predict_cost model metrics rt).cost_trend = some "stable"
        ↔ ¬ 70 < list_mean (metrics.map (fun m => m.cpu)))
    ∧ (list_mean (metrics.map (fun m => m.cpu)) = 70 →
        (predict_cost model metrics rt).cost_trend = some "stable")
    ∧ ∃ d : ℚ,
        (predict_cost model metrics rt).predicted_daily_cost = some d
        ∧ (predict_cost model metrics rt).predicted_monthly_cost = some (d * 30)
        ∧ (predict_cost model metrics rt).optimization_potential
            = some (max 0 ((100 - list_mean (metrics.map (fun m => m.cpu))) * 0.01 * d)) := by
  have hl : ¬ metrics.length < 1 := by
    simp only [Nat.lt_one_iff, List.length_eq_zero]
    exact h
  have hp : predict_cost model metrics rt =
      { predicted_daily_cost := some (model (cost_features metrics rt) * 100)
        predicted_monthly_cost := some (model (cost_features metrics rt) * 100 * 30)
        cost_trend := some
          (if list_mean (metrics.map (fun m => m.cpu)) > 70 then "increasing" else "stable")
        optimization_potential := some
          (max 0 ((100 - list_mean (metrics.map (fun m => m.cpu))) * 0.01
            * (model (cost_features metrics rt) * 100))) } := by
    simp only [predict_cost, if_neg hl]
  refine ⟨?_, ?_, ?_, ?_⟩
  · rw [hp]
    by_cases hc : 70 < list_mean (metrics.map (fun m => m.cpu))
    · simp [hc]
    · simp [hc]
  · rw [hp]
    by_cases hc : 70 < list_mean (metrics.map (fun m => m.cpu))
    · simp [hc]
    · simp [hc]
  · intro he
    rw [hp]
    simp [he]
  · exact ⟨model (cost_features metrics rt) * 100, by rw [hp], by rw [hp], by rw [hp]⟩

/-- C6 witness: the contract evaluated on one concrete sample (CPU 80, so the
trend is "increasing") with a constant scoring function. -/
theorem predict_cost_contract_witness :
    (([sample_metric] : List MetricData) ≠ [])
    ∧ (((predict_cost (fun _ => 1) [sample_metric] "compute").cost_trend = some "increasing"
        ↔ 70 < list_mean ([sample_metric].map (fun m => m.cpu)))
      ∧ ((predict_cost (fun _ => 1) [sample_metric] "compute").cost_trend = some "stable"
        ↔ ¬ 70 < list_mean ([sample_metric].map (fun m => m.cpu)))
      ∧ (list_mean ([sample_metric].map (fun m => m.cpu)) = 70 →
          (predict_cost (fun _ => 1) [sample_metric] "compute").cost_trend = some "stable")
      ∧ ∃ d : ℚ,
          (predict_cost (fun _ => 1) [sample_metric] "compute").predicted_daily_cost = some d
          ∧ (predict_cost (fun _ => 1) [sample_metric] "compute").predicted_monthly_cost
              = some (d * 30)
          ∧ (predict_cost (fun _ => 1) [sample_metric] "compute").optimization_potential
              = some (max 0 ((100 - list_mean ([sample_metric].map (fun m => m.cpu)))
                  * 0.01 * d))) :=
  ⟨List.cons_ne_nil _ _,
    predict_cost_contract (fun _ => 1) [sample_metric] "compute" (List.cons_ne_nil _ _)⟩

/-- C1 (code divergence): a request with an unknown task identifier is
answered with HTTPException status 500, not 400: the 400 raised inside the
try block is caught by the blanket except-Exception handler and re-raised as
a 500 whose detail is the string form of the original exception. -/
theorem predict_unknown_task_maps_to_500 (M : MLModels) (perfRand : ℚ) :
    predict_metrics M perfRand
        { resource_id := "r1", metrics := [], prediction_type := "invalid" }
      = Except.error { status_code := 500, detail := "400: Invalid prediction type" } := by
  rfl

/-- C2: with fewer than 10 samples, the performance feature vector is 40 wide,
its first 4*(10-n) entries are zeros, and the rest are the raw (non-normalized)
field values of all n provided samples in order. -/
theorem preprocess_metrics_short_window (metrics : List MetricData)
    (h : metrics.length < 10) :
    (preprocess_metrics metrics).length = 40
    ∧ (preprocess_metrics metrics).take (4 * (10 - metrics.length))
        = List.replicate (4 * (10 - metrics.length)) (0 : ℚ)
    ∧ (preprocess_metrics metrics).drop (4 * (10 - metrics.length))
        = List.flatten (metrics.map raw_fields) := by
  have hp : preprocess_metrics metrics
      = List.replicate (4 * (10 - metrics.length)) (0 : ℚ)
        ++ List.flatten (metrics.map raw_fields) := by
    simp only [preprocess_metrics, if_pos h, flatten_replicate_zero4]
  have hlen : (List.replicate (4 * (10 - metrics.length)) (0 : ℚ)).length
      = 4 * (10 - metrics.length) := by simp
  refine ⟨?_, ?_, ?_⟩
  · rw [hp, List.length_append, hlen, length_flatten_raw]
    omega
  · rw [hp, List.take_left' hlen]
  · rw [hp, List.drop_left' hlen]

/-- C2 witness: the empty metrics sequence (n = 0) gives the all-zero vector. -/
theorem preprocess_metrics_short_window_witness :
    ([] : List MetricData).length < 10
    ∧ ((preprocess_metrics []).length = 40
      ∧ (preprocess_metrics []).take (4 * (10 - ([] : List MetricData).length))
          = List.replicate (4 * (10 - ([] : List MetricData).length)) (0 : ℚ)
      ∧ (preprocess_metrics []).drop (4 * (10 - ([] : List MetricData).length))
          = List.flatten (([] : List MetricData).map raw_fields)) :=
  ⟨by decide, preprocess_metrics_short_window [] (by decide)⟩

/-- C7: with at least 10 samples, the performance feature vector is exactly the
last 10 samples (a window of length 10), their fields each divided by 100,
40 values in total. -/
theorem preprocess_metrics_long_window (metrics : List MetricData)
    (h : 10 ≤ metrics.length) :
    (preprocess_metrics metrics).length = 40
    ∧ (metrics.drop (metrics.length - 10)).length = 10
    ∧ preprocess_metrics metrics
        = (List.flatten ((metrics.drop (metrics.length - 10)).map raw_fields)).map
            (fun x => x / 100) := by
  have hnl : ¬ metrics.length < 10 := not_lt.2 h
  have hp : preprocess_metrics metrics
      = List.flatten ((metrics.drop (metrics.length - 10)).map norm_fields) := by
    simp only [preprocess_metrics, if_neg hnl]
  have hdl : (metrics.drop (metrics.length - 10)).length = 10 := by
    rw [List.length_drop]
    omega
  have hmap : ∀ m : MetricData, (raw_fields m).map (fun x => x / 100) = norm_fields m :=
    fun m => rfl
  refine ⟨?_, hdl, ?_⟩
  · rw [hp, length_flatten_norm, hdl]
  · rw [hp, List.map_flatten, List.map_map]
    congr 1

/-- C7 witness: ten copies of the sample give the normalized 40-wide window. -/
theorem preprocess_metrics_long_window_witness :
    10 ≤ (List.replicate 10 sample_metric).length
    ∧ ((preprocess_metrics (List.replicate 10 sample_metric)).length = 40
      ∧ ((List.replicate 10 sample_metric).drop
          ((List.replicate 10 sample_metric).length - 10)).length = 10
      ∧ preprocess_metrics (List.replicate 10 sample_metric)
          = (List.flatten (((List.replicate 10 sample_metric).drop
              ((List.replicate 10 sample_metric).length - 10)).map raw_fields)).map
              (fun x => x / 100)) :=
  ⟨by simp, preprocess_metrics_long_window (List.replicate 10 sample_metric) (by simp)⟩

/-- C8: create_twin yields a twin whose accuracy lies in [0.75, 0.95), whose
predictions are unset, and whose record replaces whatever was stored under the
resource id (for any prior store), leaving all other ids untouched. -/
theorem create_twin_contract (rand : ℚ) (store : TwinStore) (rid : String)
    (init : StateDict) (h0 : 0 ≤ rand) (h1 : rand < 1) :
    0.75 ≤ (create_twin rand store rid init).1.accuracy
    ∧ (create_twin rand store rid init).1.accuracy < 0.95
    ∧ (create_twin rand store rid init).1.predictions = none
    ∧ (create_twin rand store rid init).2 rid = some (create_twin rand store rid init).1
    ∧ ∀ j, j ≠ rid → (create_twin rand store rid init).2 j = store j := by
  have hacc : (create_twin rand store rid init).1.accuracy = 0.75 + rand * 0.2 := rfl
  refine ⟨?_, ?_, rfl, ?_, ?_⟩
  · rw [hacc]
    nlinarith
  · rw [hacc]
    nlinarith
  · simp [create_twin]
  · intro j hj
    simp [create_twin, hj]

/-- C8 witness: the contract at rand one half over the empty store. -/
theorem create_twin_contract_witness :
    (0 : ℚ) ≤ 1 / 2 ∧ (1 : ℚ) / 2 < 1
    ∧ (0.75 ≤ (create_twin (1 / 2) (fun _ => none) "r1" []).1.accuracy
      ∧ (create_twin (1 / 2) (fun _ => none) "r1" []).1.accuracy < 0.95
      ∧ (create_twin (1 / 2) (fun _ => none) "r1" []).1.predictions = none
      ∧ (create_twin (1 / 2) (fun _ => none) "r1" []).2 "r1"
          = some (create_twin (1 / 2) (fun _ => none) "r1" []).1
      ∧ ∀ j, j ≠ "r1" →
          (create_twin (1 / 2) (fun _ => none) "r1" []).2 j = (fun _ => none : TwinStore) j) :=
  ⟨by norm_num, by norm_num,
    create_twin_contract (1 / 2) (fun _ => none) "r1" [] (by norm_num) (by norm_num)⟩

/-- After update_twin_core, the store maps the resource id to the returned twin. -/
theorem update_twin_core_lookup (M : MLModels) (cr pr : ℚ) (store : TwinStore)
    (rid : String) (metrics : List MetricData) :
    (update_twin_core M cr pr store rid metrics).2 rid
      = some (update_twin_core M cr pr store rid metrics).1 := by
  rcases h : store rid with _ | t <;> simp [update_twin_core, h, create_twin]

/-- The accuracy returned by update_twin_core: the prior accuracy (or the
freshly created baseline) plus 0.001, capped at 0.99. -/
theorem update_twin_core_accuracy (M : MLModels) (cr pr : ℚ) (store : TwinStore)
    (rid : String) (metrics : List MetricData) :
    (update_twin_core M cr pr store rid metrics).1.accuracy
      = min 0.99 ((match store rid with
          | some t => t.accuracy
          | none => 0.75 + cr * 0.2) + 0.001) := by
  rcases h : store rid with _ | t <;> simp [update_twin_core, h, create_twin]

/-- The accuracy returned by update_twin_core never exceeds the 0.99 cap. -/
theorem update_twin_core_accuracy_le (M : MLModels) (cr pr : ℚ) (store : TwinStore)
    (rid : String) (metrics : List MetricData) :
    (update_twin_core M cr pr store rid metrics).1.accuracy ≤ 0.99 := by
  rw [update_twin_core_accuracy]
  exact min_le_left _ _

/-- store_twin_data returns normally for every write collaborator: the
except-all handler swallows any write failure. -/
theorem store_twin_data_ok (write : InfluxPoint → Except String Unit)
    (twin : DigitalTwinState) (metrics : List MetricData) :
    store_twin_data write twin metrics = Except.ok () := by
  rcases h : store_twin_data_attempt write twin metrics with u | e <;>
    simp [store_twin_data, h]

/-- update_twin always succeeds with the in-memory result of update_twin_core,
whatever the persistence collaborator does. -/
theorem update_twin_eq_ok (M : MLModels) (write : InfluxPoint → Except String Unit)
    (cr pr : ℚ) (store : TwinStore) (rid : String) (metrics : List MetricData) :
    update_twin M write cr pr store rid metrics
      = Except.ok (update_twin_core M cr pr store rid metrics) := by
  unfold update_twin
  simp only [store_twin_data_ok]
  rfl

/-- C3: over repeated update_twin calls on one resource id, the returned
accuracy sequence is monotonically non-decreasing, each call sets the new
accuracy to the previous one plus the fixed 0.001 step capped at 0.99, the
accuracy never exceeds 0.99, and each call succeeds with the next store. -/
theorem update_twin_accuracy_evolution (M : MLModels)
    (write : InfluxPoint → Except String Unit) (cr pr : ℚ) (store : TwinStore)
    (rid : String) (metrics : List MetricData) (n : Nat) :
    (update_result M cr pr store rid metrics n).accuracy
      ≤ (update_result M cr pr store rid metrics (n + 1)).accuracy
    ∧ (update_result M cr pr store rid metrics (n + 1)).accuracy
      = min 0.99 ((update_result M cr pr store rid metrics n).accuracy + 0.001)
    ∧ (update_result M cr pr store rid metrics n).accuracy ≤ 0.99
    ∧ update_twin M write cr pr (update_seq M cr pr store rid metrics n) rid metrics
      = Except.ok (update_result M cr pr store rid metrics n,
          update_seq M cr pr store rid metrics (n + 1)) := by
  have hbound : (update_result M cr pr store rid metrics n).accuracy ≤ 0.99 :=
    update_twin_core_accuracy_le M cr pr
      (update_seq M cr pr store rid metrics n) rid metrics
  have hlook : update_seq M cr pr store rid metrics (n + 1) rid
      = some (update_result M cr pr store rid metrics n) :=
    update_twin_core_lookup M cr pr
      (update_seq M cr pr store rid metrics n) rid metrics
  have hstep : (update_result M cr pr store rid metrics (n + 1)).accuracy
      = min 0.99 ((update_result M cr pr store rid metrics n).accuracy + 0.001) := by
    show (update_twin_core M cr pr
        (update_seq M cr pr store rid metrics (n + 1)) rid metrics).1.accuracy = _
    rw [update_twin_core_accuracy, hlook]
  refine ⟨?_, hstep, hbound, ?_⟩
  · rw [hstep]
    refine le_min hbound ?_
    linarith
  · rw [update_twin_eq_ok]
    rfl

/-- C9: a failing time-series write makes the store_twin_data try block raise,
store_twin_data itself swallows that failure, and update_twin returns exactly
the in-memory update result — identical to the result under a healthy write
collaborator — so the failure never propagates to the caller. -/
theorem update_twin_swallows_persistence_failure (M : MLModels) (cr pr : ℚ)
    (store : TwinStore) (rid : String) (metrics : List MetricData)
    (write : InfluxPoint → Except String Unit) (e : String)
    (twin : DigitalTwinState) (hm : metrics ≠ []) :
    store_twin_data_attempt (fun _ => Except.error e) twin metrics = Except.error e
    ∧ store_twin_data (fun _ => Except.error e) twin metrics = Except.ok ()
    ∧ update_twin M (fun _ => Except.error e) cr pr store rid metrics
        = Except.ok (update_twin_core M cr pr store rid metrics)
    ∧ update_twin M (fun _ => Except.error e) cr pr store rid metrics
        = update_twin M write cr pr store rid metrics := by
  refine ⟨?_, store_twin_data_ok _ twin metrics,
    update_twin_eq_ok M _ cr pr store rid metrics, ?_⟩
  · rcases metrics with _ | ⟨m, t⟩
    · exact absurd rfl hm
    · rfl
  · rw [update_twin_eq_ok, update_twin_eq_ok]

/-- A trivial model bundle used by the witness theorems. -/
def plain_models : MLModels :=
  { performance_model := fun _ => ⟨0, 0, 0, 0⟩
    anomaly_model := id
    cost_model := fun _ => 1 }

/-- C9 witness: one sample, an unreachable write collaborator that always
fails, and a healthy one; the update result is the same. -/
theorem update_twin_swallows_persistence_failure_witness :
    ([sample_metric] : List MetricData) ≠ []
    ∧ (store_twin_data_attempt (fun _ => Except.error "influx down")
          { resource_id := "r1", state := [] } [sample_metric] = Except.error "influx down"
      ∧ store_twin_data (fun _ => Except.error "influx down")
          { resource_id := "r1", state := [] } [sample_metric] = Except.ok ()
      ∧ update_twin plain_models (fun _ => Except.error "influx down") (1 / 2) (1 / 2)
          (fun _ => none) "r1" [sample_metric]
          = Except.ok (update_twin_core plain_models (1 / 2) (1 / 2)
              (fun _ => none) "r1" [sample_metric])
      ∧ update_twin plain_models (fun _ => Except.error "influx down") (1 / 2) (1 / 2)
          (fun _ => none) "r1" [sample_metric]
          = update_twin plain_models (fun _ => Except.ok ()) (1 / 2) (1 / 2)
              (fun _ => none) "r1" [sample_metric]) :=
  ⟨List.cons_ne_nil _ _,
    update_twin_swallows_persistence_failure plain_models (1 / 2) (1 / 2)
      (fun _ => none) "r1" [sample_metric] (fun _ => Except.ok ()) "influx down"
      { resource_id := "r1", state := [] } (List.cons_ne_nil _ _)⟩

/-- C10: both core call paths that produce a cost prediction — the twin update
and the predict dispatch — invoke predict_cost with the default resource type
"compute", so the one-hot resource-type triple at the tail of the 8-wide cost
feature vector is (1, 0, 0), and the daily cost is the model score of exactly
that feature vector scaled by 100. -/
theorem core_cost_calls_use_compute_type (M : MLModels) (cr pr : ℚ)
    (store : TwinStore) (rid : String) (metrics : List MetricData)
    (hm : metrics ≠ []) :
    (∃ perf anom cost,
        (update_twin_core M cr pr store rid metrics).1.predictions
          = some (perf, anom, cost)
        ∧ cost = predict_cost M.cost_model metrics "compute")
    ∧ predict_try_body M pr
        { resource_id := rid, metrics := metrics, prediction_type := "cost" }
        = Except.ok
          { resource_id := rid
            prediction_type := "cost"
            result := PredictResult.cost (predict_cost M.cost_model metrics "compute") }
    ∧ (cost_features metrics "compute").drop 5 = [1, 0, 0]
    ∧ (predict_cost M.cost_model metrics "compute").predicted_daily_cost
        = some (M.cost_model (cost_features metrics "compute") * 100) := by
  have hpred : (update_twin_core M cr pr store rid metrics).1.predictions
      = some (mk_predictions M pr metrics) := by
    rcases h : store rid with _ | t <;> simp [update_twin_core, h, create_twin]
  have hlen : ¬ metrics.length < 1 := by
    simp only [Nat.lt_one_iff, List.length_eq_zero]
    exact hm
  refine ⟨⟨predict_performance M.performance_model pr metrics,
      detect_anomalies M.anomaly_model metrics,
      predict_cost M.cost_model metrics "compute", hpred, rfl⟩, rfl, rfl, ?_⟩
  simp only [predict_cost, if_neg hlen]

/-- C10 witness: one concrete sample with the trivial model bundle. -/
theorem core_cost_calls_use_compute_type_witness :
    ([sample_metric] : List MetricData) ≠ []
    ∧ ((∃ perf anom cost,
          (update_twin_core plain_models (1 / 2) (1 / 2) (fun _ => none) "r1"
            [sample_metric]).1.predictions = some (perf, anom, cost)
          ∧ cost = predict_cost plain_models.cost_model [sample_metric] "compute")
      ∧ predict_try_body plain_models (1 / 2)
          { resource_id := "r1", metrics := [sample_metric], prediction_type := "cost" }
          = Except.ok
            { resource_id := "r1"
              prediction_type := "cost"
              result := PredictResult.cost
                (predict_cost plain_models.cost_model [sample_metric] "compute") }
      ∧ (cost_features [sample_metric] "compute").drop 5 = [1, 0, 0]
      ∧ (predict_cost plain_models.cost_model [sample_metric] "compute").predicted_daily_cost
          = some (plain_models.cost_model (cost_features [sample_metric] "compute") * 100)) :=
  ⟨List.cons_ne_nil _ _,
    core_cost_calls_use_compute_type plain_models (1 / 2) (1 / 2) (fun _ => none) "r1"
      [sample_metric] (List.cons_ne_nil _ _)⟩

end CloudGuard
